import Mathlib

/-!
Shallow embedding of the per-thread credential syscalls from
`src/libos/src/sys/libos_getuid.c` (the `libos_syscall_setuid`,
`libos_syscall_setgid`, `libos_syscall_setreuid`, `libos_syscall_setresuid`,
`libos_syscall_setgroups` and `libos_syscall_getgroups` handlers), together
with theorems settling the frozen claims about this program.

Identity values (`uid_t`, `gid_t`) are 32-bit unsigned integers in the
source; we model the value carried on the wire as a `Nat` (the bit pattern
read as an unsigned number).  The source tests `(int)x != -1` to detect the
"leave unchanged" sentinel; on a 32-bit unsigned `x` this is exactly the
test `x != 0xFFFFFFFF`, so the sentinel is the concrete value `4294967295`.

Each handler runs under the current thread's lock and manipulates only the
current thread's credential record, so it is embedded as a pure function
from the credential record (plus arguments) to a return value and the new
record.  `getgroups` additionally returns the list of identifiers written
into the user buffer.
-/

namespace LibosGetuid

/-- Per-thread credential record: the fields of `struct libos_thread` that
the handlers in `libos_getuid.c` read and write (`uid`, `euid`, `suid`,
`gid`, `egid`, `sgid`, and `groups_info` flattened to the list of
supplementary group identifiers; `groups_info.count` is the list length). -/
structure Cred where
  uid : Nat
  euid : Nat
  suid : Nat
  gid : Nat
  egid : Nat
  sgid : Nat
  groups : List Nat
  deriving Repr, DecidableEq

/-- The wire-level bit pattern of `-1` cast to the unsigned 32-bit identity
type: the value whose `(int)` cast compares equal to `-1` in the source. -/
def sentinel : Nat := 4294967295

/-- Error number `EPERM` (operation not permitted). -/
def EPERM : Int := 1

/-- Error number `EINVAL` (invalid argument). -/
def EINVAL : Int := 22

/-- Maximum number of supplemental group IDs, `NGROUPS_MAX` in the source. -/
def NGROUPS_MAX : Nat := 65536

/-- Embedding of `libos_syscall_setuid`: if the current real uid is 0 the
real and saved uids are set to `uid`; otherwise the call fails with
`-EPERM` unless `uid` equals the current real or saved uid; on success the
effective uid is set to `uid`. -/
def libos_syscall_setuid (s : Cred) (uid : Nat) : Int × Cred :=
  if s.uid = 0 then
    let s1 : Cred := { s with uid := uid, suid := uid }
    (0, { s1 with euid := uid })
  else if uid ≠ s.uid ∧ uid ≠ s.suid then
    (-EPERM, s)
  else
    (0, { s with euid := uid })

/-- Embedding of `libos_syscall_setgid`: the privilege test is on the real
*uid* (`current->uid == 0`), not on any group field; otherwise `gid` must
equal the current real or saved gid; on success the effective gid is set. -/
def libos_syscall_setgid (s : Cred) (gid : Nat) : Int × Cred :=
  if s.uid = 0 then
    let s1 : Cred := { s with gid := gid, sgid := gid }
    (0, { s1 with egid := gid })
  else if gid ≠ s.gid ∧ gid ≠ s.sgid then
    (-EPERM, s)
  else
    (0, { s with egid := gid })

/-- The permission computation of `libos_syscall_setreuid`, embedded
faithfully to the source's control flow: `ret` starts at `-EPERM`, the
privileged check `current->euid == 0` sets it to 0, and then — because the
source has `} if` rather than `} else if` after that check — the
sentinel-driven chain runs unconditionally; each of its branches only ever
assigns 0 to `ret`, never `-EPERM`, so a 0 from the privileged check is
preserved. -/
def setreuid_perm (s : Cred) (ruid euid : Nat) : Int :=
  let r0 : Int := if s.euid = 0 then 0 else -EPERM
  if ruid ≠ sentinel ∧ euid ≠ sentinel then
    if (ruid = s.uid ∨ ruid = s.euid) ∧ (euid = s.uid ∨ euid = s.euid) then 0 else r0
  else if ruid ≠ sentinel then
    if ruid = s.euid then 0 else r0
  else if euid ≠ sentinel then
    if euid = s.uid ∨ euid = s.suid then 0 else r0
  else if euid = sentinel ∧ ruid = sentinel then 0
  else r0

/-- The mutation phase of `libos_syscall_setreuid`: apply a non-sentinel
`ruid` to the real uid (flagging a saved-uid refresh), apply a non-sentinel
`euid` to the effective uid (flagging a refresh when it differs from the
possibly-just-updated real uid), and when flagged set the saved uid to the
final effective uid. -/
def setreuid_apply (s : Cred) (ruid euid : Nat) : Cred :=
  let p1 : Cred × Bool :=
    if ruid ≠ sentinel then ({ s with uid := ruid }, true) else (s, false)
  let p2 : Cred × Bool :=
    if euid ≠ sentinel then
      ({ p1.1 with euid := euid }, if p1.1.uid ≠ euid then true else p1.2)
    else p1
  if p2.2 then { p2.1 with suid := p2.1.euid } else p2.1

/-- Embedding of `libos_syscall_setreuid`: evaluate the permission chain;
if it left `ret` nonzero return `-EPERM` with the record unchanged,
otherwise apply the mutation phase and return 0. -/
def libos_syscall_setreuid (s : Cred) (ruid euid : Nat) : Int × Cred :=
  let ret := setreuid_perm s ruid euid
  if ret ≠ 0 then (ret, s)
  else (0, setreuid_apply s ruid euid)

/-- The mutation phase of `libos_syscall_setresuid`: each non-sentinel
argument is applied to its field, sentinel fields are left untouched. -/
def setresuid_apply (s : Cred) (ruid euid suid : Nat) : Cred :=
  let s1 : Cred := if ruid ≠ sentinel then { s with uid := ruid } else s
  let s2 : Cred := if euid ≠ sentinel then { s1 with euid := euid } else s1
  if suid ≠ sentinel then { s2 with suid := suid } else s2

/-- Embedding of `libos_syscall_setresuid`: when the current effective uid
is not 0, every non-sentinel argument must equal one of the current real,
effective or saved uid — all three are checked before any write — and any
violation returns `-EPERM` with no mutation; then each non-sentinel
argument is applied to its field. -/
def libos_syscall_setresuid (s : Cred) (ruid euid suid : Nat) : Int × Cred :=
  if s.euid ≠ 0 then
    if ruid ≠ sentinel ∧ ruid ≠ s.uid ∧ ruid ≠ s.euid ∧ ruid ≠ s.suid then
      (-EPERM, s)
    else if euid ≠ sentinel ∧ euid ≠ s.uid ∧ euid ≠ s.euid ∧ euid ≠ s.suid then
      (-EPERM, s)
    else if suid ≠ sentinel ∧ suid ≠ s.uid ∧ suid ≠ s.euid ∧ suid ≠ s.suid then
      (-EPERM, s)
    else (0, setresuid_apply s ruid euid suid)
  else (0, setresuid_apply s ruid euid suid)

/-- Embedding of `libos_syscall_setgroups` on the path where the external
buffer-readability check passes and allocation succeeds (the claims assume
both).  `gidsetsize` is the C `int` argument; a negative value or one above
`NGROUPS_MAX` is rejected with `-EINVAL`; size 0 frees the list; otherwise
the first `gidsetsize` identifiers of the user buffer are copied in. -/
def libos_syscall_setgroups (s : Cred) (gidsetsize : Int) (grouplist : List Nat) :
    Int × Cred :=
  if gidsetsize < 0 ∨ gidsetsize > (NGROUPS_MAX : Int) then (-EINVAL, s)
  else if gidsetsize = 0 then (0, { s with groups := [] })
  else (0, { s with groups := grouplist.take gidsetsize.toNat })

/-- Embedding of `libos_syscall_getgroups` on the path where the external
buffer-writability check passes: returns the C return value together with
the list of identifiers written into the user buffer (empty when nothing is
written).  A negative size is `-EINVAL`; a nonzero size smaller than the
current count is `-EINVAL` with nothing written; otherwise all current
group identifiers are copied out (none in probe mode, size 0) and the count
is returned. -/
def libos_syscall_getgroups (s : Cred) (gidsetsize : Int) : Int × List Nat :=
  if gidsetsize < 0 then (-EINVAL, [])
  else
    let ret_size := s.groups.length
    if gidsetsize ≠ 0 then
      if (ret_size : Int) > gidsetsize then (-EINVAL, [])
      else ((ret_size : Int), s.groups)
    else ((ret_size : Int), [])

end LibosGetuid

namespace LibosGetuid

/-! Helper lemmas about the mutation phases, shared by several claims. -/

/-- A sentinel `ruid` never touches the real uid in the `setreuid` mutation
phase. -/
theorem setreuid_apply_sentinel_ruid (s : Cred) (euid : Nat) :
    (setreuid_apply s sentinel euid).uid = s.uid := by
  unfold setreuid_apply
  split_ifs <;> simp_all
  split_ifs <;> simp_all

/-- A sentinel `euid` never touches the effective uid in the `setreuid`
mutation phase. -/
theorem setreuid_apply_sentinel_euid (s : Cred) (ruid : Nat) :
    (setreuid_apply s ruid sentinel).euid = s.euid := by
  unfold setreuid_apply
  split_ifs <;> simp_all

/-- A non-sentinel `ruid` is written to the real uid by the `setreuid`
mutation phase. -/
theorem setreuid_apply_uid (s : Cred) (ruid euid : Nat) (h : ruid ≠ sentinel) :
    (setreuid_apply s ruid euid).uid = ruid := by
  unfold setreuid_apply
  split_ifs <;> simp_all

/-- A non-sentinel `euid` is written to the effective uid by the `setreuid`
mutation phase. -/
theorem setreuid_apply_euid (s : Cred) (ruid euid : Nat) (h : euid ≠ sentinel) :
    (setreuid_apply s ruid euid).euid = euid := by
  unfold setreuid_apply
  split_ifs <;> simp_all
  split_ifs <;> simp_all

/-- With a privileged effective uid the `setreuid` permission chain always
yields 0: the initial privileged check sets `ret` to 0 and no later branch
ever assigns a nonzero value. -/
theorem setreuid_perm_privileged (s : Cred) (ruid euid : Nat) (h : s.euid = 0) :
    setreuid_perm s ruid euid = 0 := by
  unfold setreuid_perm
  simp only [h, if_true]
  split_ifs <;> rfl

end LibosGetuid

namespace LibosGetuid

/-- Claim C5: for every call to `setuid(id)` where the current real uid is
not 0 and `id` equals neither the current real uid nor the current saved
uid, the call returns `-EPERM` and the real, effective and saved uids are
all unchanged. -/
theorem setuid_unprivileged_eperm (s : Cred) (id : Nat)
    (h0 : s.uid ≠ 0) (h1 : id ≠ s.uid) (h2 : id ≠ s.suid) :
    libos_syscall_setuid s id = (-EPERM, s) := by
  unfold libos_syscall_setuid
  simp [h0, h1, h2]

/-- Witness for C5: a caller with uid 1000 asking for uid 0 is denied and
the record is untouched. -/
theorem setuid_unprivileged_eperm_witness :
    libos_syscall_setuid ⟨1000, 1000, 1000, 0, 0, 0, []⟩ 0 =
      (-EPERM, ⟨1000, 1000, 1000, 0, 0, 0, []⟩) :=
  setuid_unprivileged_eperm ⟨1000, 1000, 1000, 0, 0, 0, []⟩ 0
    (by decide) (by decide) (by decide)

/-- Claim C6: for every call to `setuid(id)` where the current real uid is
0, the call returns 0 and afterward the real, effective and saved uids all
equal `id`. -/
theorem setuid_privileged_sets_all (s : Cred) (id : Nat) (h : s.uid = 0) :
    (libos_syscall_setuid s id).1 = 0 ∧
    (libos_syscall_setuid s id).2.uid = id ∧
    (libos_syscall_setuid s id).2.euid = id ∧
    (libos_syscall_setuid s id).2.suid = id := by
  unfold libos_syscall_setuid
  simp [h]

/-- Witness for C6: a root caller calling `setuid(500)` ends with all three
uid fields equal to 500. -/
theorem setuid_privileged_sets_all_witness :
    (libos_syscall_setuid ⟨0, 0, 0, 0, 0, 0, []⟩ 500).1 = 0 ∧
    (libos_syscall_setuid ⟨0, 0, 0, 0, 0, 0, []⟩ 500).2.uid = 500 ∧
    (libos_syscall_setuid ⟨0, 0, 0, 0, 0, 0, []⟩ 500).2.euid = 500 ∧
    (libos_syscall_setuid ⟨0, 0, 0, 0, 0, 0, []⟩ 500).2.suid = 500 :=
  setuid_privileged_sets_all ⟨0, 0, 0, 0, 0, 0, []⟩ 500 (by decide)

/-- Claim C7: for every credential state, `setreuid(-1, -1)` returns 0 and
leaves the real, effective and saved uids unchanged, regardless of the
privilege of the caller. -/
theorem setreuid_both_sentinel_noop (s : Cred) :
    libos_syscall_setreuid s sentinel sentinel = (0, s) := by
  unfold libos_syscall_setreuid setreuid_perm setreuid_apply
  simp

/-- Claim C10 (implicit): the privileged branch of `setgid` is taken
exactly when the caller's real *uid* is 0; a caller whose real uid is 0 may
set all three gid fields to any value, while a caller with nonzero real uid
— no matter what its gid fields hold, in particular even with real gid 0 —
is denied any value outside the current real and saved gids. -/
theorem setgid_privilege_is_real_uid (s : Cred) (gid : Nat) :
    (s.uid = 0 →
      (libos_syscall_setgid s gid).1 = 0 ∧
      (libos_syscall_setgid s gid).2.gid = gid ∧
      (libos_syscall_setgid s gid).2.egid = gid ∧
      (libos_syscall_setgid s gid).2.sgid = gid) ∧
    (s.uid ≠ 0 → gid ≠ s.gid → gid ≠ s.sgid →
      libos_syscall_setgid s gid = (-EPERM, s)) := by
  unfold libos_syscall_setgid
  constructor
  · intro h
    simp [h]
  · intro h0 h1 h2
    simp [h0, h1, h2]

/-- Witness for C10: a caller with real gid 0 and saved gid 0 but real uid
1000 receives no privilege — asking for gid 7 is denied with no change. -/
theorem setgid_privilege_is_real_uid_witness :
    libos_syscall_setgid ⟨1000, 1000, 1000, 0, 5, 0, []⟩ 7 =
      (-EPERM, ⟨1000, 1000, 1000, 0, 5, 0, []⟩) :=
  (setgid_privilege_is_real_uid ⟨1000, 1000, 1000, 0, 5, 0, []⟩ 7).2
    (by decide) (by decide) (by decide)

end LibosGetuid

namespace LibosGetuid

/-- A sentinel `ruid` never touches the real uid in the `setresuid`
mutation phase. -/
theorem setresuid_apply_sentinel_ruid (s : Cred) (euid suid : Nat) :
    (setresuid_apply s sentinel euid suid).uid = s.uid := by
  unfold setresuid_apply
  split_ifs <;> simp_all

/-- A sentinel `euid` never touches the effective uid in the `setresuid`
mutation phase. -/
theorem setresuid_apply_sentinel_euid (s : Cred) (ruid suid : Nat) :
    (setresuid_apply s ruid sentinel suid).euid = s.euid := by
  unfold setresuid_apply
  split_ifs <;> simp_all

/-- A sentinel `suid` never touches the saved uid in the `setresuid`
mutation phase. -/
theorem setresuid_apply_sentinel_suid (s : Cred) (ruid euid : Nat) :
    (setresuid_apply s ruid euid sentinel).suid = s.suid := by
  unfold setresuid_apply
  split_ifs <;> simp_all

/-- Claim C1: every call to `setreuid(ruid, euid)` made while the current
effective uid is the privileged value 0 is unconditionally permitted — it
returns 0 and applies the requested changes (each non-sentinel argument is
written to its field) regardless of whether `ruid` and `euid` match any
currently held identity.  This holds despite the missing `else` in the
source: the privileged check sets `ret` to 0 and no later branch of the
permission chain ever makes it nonzero again. -/
theorem setreuid_privileged_unconditional (s : Cred) (ruid euid : Nat)
    (h : s.euid = 0) :
    (libos_syscall_setreuid s ruid euid).1 = 0 ∧
    (ruid ≠ sentinel → (libos_syscall_setreuid s ruid euid).2.uid = ruid) ∧
    (euid ≠ sentinel → (libos_syscall_setreuid s ruid euid).2.euid = euid) := by
  have hp := setreuid_perm_privileged s ruid euid h
  simp only [libos_syscall_setreuid, hp, ne_eq, not_true_eq_false, ite_false]
  exact ⟨trivial, fun hr => setreuid_apply_uid s ruid euid hr,
    fun he => setreuid_apply_euid s ruid euid he⟩

/-- Witness for C1: a caller with uid 5, euid 0, suid 9 may call
`setreuid(77, 88)` — neither value is currently held, yet the call succeeds
and both are applied. -/
theorem setreuid_privileged_unconditional_witness :
    (libos_syscall_setreuid ⟨5, 0, 9, 0, 0, 0, []⟩ 77 88).1 = 0 ∧
    (libos_syscall_setreuid ⟨5, 0, 9, 0, 0, 0, []⟩ 77 88).2.uid = 77 ∧
    (libos_syscall_setreuid ⟨5, 0, 9, 0, 0, 0, []⟩ 77 88).2.euid = 88 := by
  have h := setreuid_privileged_unconditional ⟨5, 0, 9, 0, 0, 0, []⟩ 77 88 rfl
  exact ⟨h.1, h.2.1 (by decide), h.2.2 (by decide)⟩

/-- Claim C2 as stated is false at its own concrete input: from the state
`{uid=1000, euid=0, suid=0}`, the call `setreuid(-1, 1000)` does return 0
and set the effective uid to 1000, but the saved uid stays 0 — the source
only refreshes the saved uid when the real uid was explicitly set or the
new effective uid differs from the real uid, and here the new effective
uid 1000 equals the real uid. -/
theorem setreuid_c2_counterexample :
    ¬ ((libos_syscall_setreuid ⟨1000, 0, 0, 0, 0, 0, []⟩ sentinel 1000).1 = 0 ∧
       (libos_syscall_setreuid ⟨1000, 0, 0, 0, 0, 0, []⟩ sentinel 1000).2.euid = 1000 ∧
       (libos_syscall_setreuid ⟨1000, 0, 0, 0, 0, 0, []⟩ sentinel 1000).2.suid = 1000) := by
  decide

/-- Claim C2 amended: from the starting state `{uid=1000, euid=0, suid=0}`,
the call `setreuid(-1, 1000)` returns 0 and afterward the effective uid is
1000 while the saved uid remains 0 (the saved uid is refreshed only when
the real uid was explicitly set or the new effective uid differs from the
real uid, and neither holds here). -/
theorem setreuid_c2_amended :
    libos_syscall_setreuid ⟨1000, 0, 0, 0, 0, 0, []⟩ sentinel 1000 =
      (0, ⟨1000, 1000, 0, 0, 0, 0, []⟩) := by
  decide

/-- Claim C3 as stated is false: `setuid` and `setgid` perform no sentinel
check at all, so `setuid(-1)` by a caller with real uid 0 returns 0 and
stores the numeric value `0xFFFFFFFF` into the real, effective and saved
uid fields, and `setgid(-1)` likewise stores it into the gid fields. -/
theorem setuid_sentinel_assigned_counterexample :
    (libos_syscall_setuid ⟨0, 0, 0, 0, 0, 0, []⟩ sentinel).1 = 0 ∧
    (libos_syscall_setuid ⟨0, 0, 0, 0, 0, 0, []⟩ sentinel).2.uid = 4294967295 ∧
    (libos_syscall_setuid ⟨0, 0, 0, 0, 0, 0, []⟩ sentinel).2.euid = 4294967295 ∧
    (libos_syscall_setuid ⟨0, 0, 0, 0, 0, 0, []⟩ sentinel).2.suid = 4294967295 ∧
    (libos_syscall_setgid ⟨0, 0, 0, 0, 0, 0, []⟩ sentinel).2.gid = 4294967295 := by
  decide

/-- Claim C3 amended: in `setreuid` and `setresuid` an argument equal to
the all-ones bit pattern is the "leave unchanged" marker — the
corresponding field always keeps its prior value, so those operations never
assign `0xFFFFFFFF` through such an argument; but `setuid` and `setgid`
perform no sentinel check, so `setuid(-1)` and `setgid(-1)` by a privileged
caller do store `0xFFFFFFFF` as a numeric identity value. -/
theorem sentinel_skip_amended (s : Cred) (ruid euid suid : Nat) :
    (libos_syscall_setreuid s sentinel euid).2.uid = s.uid ∧
    (libos_syscall_setreuid s ruid sentinel).2.euid = s.euid ∧
    (libos_syscall_setresuid s sentinel euid suid).2.uid = s.uid ∧
    (libos_syscall_setresuid s ruid sentinel suid).2.euid = s.euid ∧
    (libos_syscall_setresuid s ruid euid sentinel).2.suid = s.suid ∧
    (libos_syscall_setuid ⟨0, 0, 0, 0, 0, 0, []⟩ sentinel).2.uid = sentinel ∧
    (libos_syscall_setgid ⟨0, 0, 0, 0, 0, 0, []⟩ sentinel).2.gid = sentinel := by
  refine ⟨?_, ?_, ?_, ?_, ?_, by decide, by decide⟩
  · simp only [libos_syscall_setreuid]
    split_ifs
    · rfl
    · exact setreuid_apply_sentinel_ruid s euid
  · simp only [libos_syscall_setreuid]
    split_ifs
    · rfl
    · exact setreuid_apply_sentinel_euid s ruid
  · unfold libos_syscall_setresuid
    split_ifs <;> simp [setresuid_apply_sentinel_ruid]
  · unfold libos_syscall_setresuid
    split_ifs <;> simp [setresuid_apply_sentinel_euid]
  · unfold libos_syscall_setresuid
    split_ifs <;> simp [setresuid_apply_sentinel_suid]

/-- Claim C4: a call to `setresuid(ruid, euid, suid)` with current
effective uid not 0, in which at least one non-sentinel argument differs
from all of the current real, effective and saved uids, returns `-EPERM`
and leaves the record exactly as it was — all three arguments are checked
before any write, so nothing changes even when the other arguments would
individually be permitted. -/
theorem setresuid_all_or_nothing (s : Cred) (ruid euid suid : Nat)
    (h0 : s.euid ≠ 0)
    (hbad : (ruid ≠ sentinel ∧ ruid ≠ s.uid ∧ ruid ≠ s.euid ∧ ruid ≠ s.suid) ∨
            (euid ≠ sentinel ∧ euid ≠ s.uid ∧ euid ≠ s.euid ∧ euid ≠ s.suid) ∨
            (suid ≠ sentinel ∧ suid ≠ s.uid ∧ suid ≠ s.euid ∧ suid ≠ s.suid)) :
    libos_syscall_setresuid s ruid euid suid = (-EPERM, s) := by
  unfold libos_syscall_setresuid
  split_ifs <;> first | rfl | tauto

/-- Witness for C4: from `{uid=5, euid=7, suid=9}` the call
`setresuid(5, 6, 9)` has two individually valid arguments but `euid = 6` is
held nowhere, so the whole call is denied with no change. -/
theorem setresuid_all_or_nothing_witness :
    libos_syscall_setresuid ⟨5, 7, 9, 0, 0, 0, []⟩ 5 6 9 =
      (-EPERM, ⟨5, 7, 9, 0, 0, 0, []⟩) :=
  setresuid_all_or_nothing ⟨5, 7, 9, 0, 0, 0, []⟩ 5 6 9 (by decide) (by decide)

/-- Claim C8: for any `0 ≤ N ≤ 65536` and any list of `N` group IDs (buffer
checks passing and allocation succeeding, as embedded), a successful
`setgroups(N, list)` followed by `getgroups(N, buffer)` returns `N` and
fills the buffer with exactly the `N` identifiers of `list`, in order. -/
theorem setgroups_getgroups_roundtrip (s : Cred) (n : Int) (list : List Nat)
    (h0 : 0 ≤ n) (h1 : n ≤ 65536) (hlen : (list.length : Int) = n) :
    (libos_syscall_setgroups s n list).1 = 0 ∧
    libos_syscall_getgroups (libos_syscall_setgroups s n list).2 n = (n, list) := by
  have hmax : ¬ (n < 0 ∨ n > (NGROUPS_MAX : Int)) := by
    unfold NGROUPS_MAX
    push_neg
    omega
  by_cases hz : n = 0
  · subst hz
    have hl : list = [] := by
      cases list with
      | nil => rfl
      | cons a l =>
        exfalso
        simp only [List.length_cons] at hlen
        omega
    subst hl
    simp [libos_syscall_setgroups, libos_syscall_getgroups, NGROUPS_MAX]
  · have hset : libos_syscall_setgroups s n list = (0, { s with groups := list }) := by
      unfold libos_syscall_setgroups
      rw [if_neg hmax, if_neg hz]
      have hlen2 : list.length = n.toNat := by omega
      rw [← hlen2, List.take_length]
    rw [hset]
    refine ⟨rfl, ?_⟩
    unfold libos_syscall_getgroups
    rw [if_neg (show ¬ n < 0 by omega), if_pos hz]
    rw [if_neg (show ¬ ((({ s with groups := list } : Cred).groups.length : Int) > n) by
      simp only []
      omega)]
    simp only []
    rw [Prod.mk.injEq]
    constructor
    · show ((list.length : Int)) = n
      omega
    · rfl

/-- Witness for C8: setting the groups to `[10, 20, 30]` with `N = 3` and
reading them back with `getgroups(3)` returns 3 and the same list. -/
theorem setgroups_getgroups_roundtrip_witness :
    (libos_syscall_setgroups ⟨5, 7, 9, 0, 0, 0, []⟩ 3 [10, 20, 30]).1 = 0 ∧
    libos_syscall_getgroups (libos_syscall_setgroups ⟨5, 7, 9, 0, 0, 0, []⟩ 3 [10, 20, 30]).2 3 =
      (3, [10, 20, 30]) :=
  setgroups_getgroups_roundtrip ⟨5, 7, 9, 0, 0, 0, []⟩ 3 [10, 20, 30]
    (by decide) (by decide) (by decide)

/-- Claim C9: for `getgroups(size, buffer)` with `0 < size` (buffer
writable, as embedded), if the current supplementary group count exceeds
`size` the call returns `-EINVAL` and writes nothing into the buffer;
otherwise it copies all current group identifiers into the buffer and
returns the count. -/
theorem getgroups_buffer_check (s : Cred) (size : Int) (hpos : 0 < size) :
    ((s.groups.length : Int) > size →
      libos_syscall_getgroups s size = (-EINVAL, [])) ∧
    ((s.groups.length : Int) ≤ size →
      libos_syscall_getgroups s size = ((s.groups.length : Int), s.groups)) := by
  unfold libos_syscall_getgroups
  rw [if_neg (show ¬ size < 0 by omega), if_pos (show size ≠ 0 by omega)]
  constructor
  · intro h
    rw [if_pos h]
  · intro h
    rw [if_neg (not_lt.mpr h)]

/-- Witness for C9: with three current groups, `getgroups(2)` fails with
`-EINVAL` and writes nothing. -/
theorem getgroups_buffer_check_witness :
    libos_syscall_getgroups ⟨5, 7, 9, 0, 0, 0, [10, 20, 30]⟩ 2 = (-EINVAL, []) :=
  (getgroups_buffer_check ⟨5, 7, 9, 0, 0, 0, [10, 20, 30]⟩ 2 (by decide)).1 (by decide)

end LibosGetuid
